import Mathlib

/-!
Verification of the Pokemon duel bot (duel_manager.py, image_generator.py,
pokemon_api.py) against its natural-language specification.

Modelling conventions:
* Python float arithmetic is modelled exactly over the rationals; the float
  literals 0.625, 0.391, 1.6, 1.2, 0.8, 0.9 of the source are written as the
  exact fractions 5/8, 391/1000, 8/5, 6/5, 4/5, 9/10.
* External services (the PokeAPI lookup, the evolution-stage query of
  pokemon_api.get_evolution_stage, and the hashlib md5 hexdigest) are modelled
  as components of an environment record `Env`; the rest is translated from the
  source.  The md5 hexdigest is modelled as a function returning the sequence
  of hex digits of the digest (a real digest always has 32 of them).
* Each Discord event handler (reaction / message) is modelled as an atomic
  state transformer on the `Duel` state; a match run is a fold of such events.
* Python dicts keyed by player id are modelled as lists aligned with the
  participant list (dict insertion order equals the participant order in the
  source, and the key sets never change after `Duel.__init__`).
-/

/-- One Discord member taking part in a duel: only the id and display name
are relevant to the duel logic. -/
structure Player where
  id : ℕ
  name : String
  deriving DecidableEq

instance : Inhabited Player := ⟨⟨0, ""⟩⟩

/-- The six base-stat fields of the pokemon data dict (and also of the dict
returned by calculate_ivs). -/
structure StatBlock where
  hp : ℕ
  attack : ℕ
  defense : ℕ
  special_attack : ℕ
  special_defense : ℕ
  speed : ℕ
  deriving DecidableEq

/-- A creature snapshot as built by pokemon_api.get_pokemon_data: display
name, api name, the six base stats and the type list. -/
structure Pokemon where
  name : String
  api_name : String
  hp : ℕ
  attack : ℕ
  defense : ℕ
  special_attack : ℕ
  special_defense : ℕ
  speed : ℕ
  types : List String
  deriving DecidableEq

/-- Base stats of a creature gathered into a StatBlock. -/
def Pokemon.baseStats (p : Pokemon) : StatBlock :=
  { hp := p.hp, attack := p.attack, defense := p.defense,
    special_attack := p.special_attack, special_defense := p.special_defense,
    speed := p.speed }

/-- Lowercasing of Python str.lower modelled on the character list (all
names handled by the program are ASCII, where this agrees with the library
toLower; stated this way so that it reduces in the kernel). -/
def str_lower (s : String) : String := ⟨s.data.map Char.toLower⟩

/-- Base form of an api name, mirroring `api_name.split('-')[0]`: the prefix
of the string up to the first dash. -/
def base_form_name (s : String) : String := ⟨s.data.takeWhile (fun c => c ≠ '-')⟩

/-- Embedding of the pokemon_go_effectiveness nested dict of
image_generator.py: `some m` when the attacking-type row has an entry for the
defending type, `none` otherwise.  The row for "fighting" really contains the
keys " poison" and " ghost" with a leading space, exactly as in the source. -/
def pokemon_go_effectiveness (attacking defending : String) : Option ℚ :=
  match attacking, defending with
  | "normal", "rock" => some (5/8)
  | "normal", "ghost" => some (391/1000)
  | "normal", "steel" => some (5/8)
  | "fire", "fire" => some (5/8)
  | "fire", "water" => some (5/8)
  | "fire", "grass" => some (8/5)
  | "fire", "ice" => some (8/5)
  | "fire", "bug" => some (8/5)
  | "fire", "rock" => some (5/8)
  | "fire", "dragon" => some (5/8)
  | "fire", "steel" => some (8/5)
  | "fire", "fairy" => some (5/8)
  | "water", "fire" => some (8/5)
  | "water", "water" => some (5/8)
  | "water", "grass" => some (5/8)
  | "water", "ground" => some (8/5)
  | "water", "rock" => some (8/5)
  | "water", "dragon" => some (5/8)
  | "electric", "water" => some (8/5)
  | "electric", "electric" => some (5/8)
  | "electric", "grass" => some (5/8)
  | "electric", "ground" => some (391/1000)
  | "electric", "flying" => some (8/5)
  | "electric", "dragon" => some (5/8)
  | "grass", "fire" => some (5/8)
  | "grass", "water" => some (8/5)
  | "grass", "grass" => some (5/8)
  | "grass", "poison" => some (5/8)
  | "grass", "ground" => some (8/5)
  | "grass", "flying" => some (5/8)
  | "grass", "bug" => some (5/8)
  | "grass", "rock" => some (8/5)
  | "grass", "dragon" => some (5/8)
  | "grass", "steel" => some (5/8)
  | "ice", "fire" => some (5/8)
  | "ice", "water" => some (5/8)
  | "ice", "grass" => some (8/5)
  | "ice", "ice" => some (5/8)
  | "ice", "ground" => some (8/5)
  | "ice", "flying" => some (8/5)
  | "ice", "dragon" => some (8/5)
  | "ice", "steel" => some (5/8)
  | "fighting", "normal" => some (8/5)
  | "fighting", "ice" => some (8/5)
  | "fighting", " poison" => some (5/8)
  | "fighting", "flying" => some (5/8)
  | "fighting", "psychic" => some (5/8)
  | "fighting", "bug" => some (5/8)
  | "fighting", "rock" => some (8/5)
  | "fighting", " ghost" => some (391/1000)
  | "fighting", "dark" => some (8/5)
  | "fighting", "steel" => some (8/5)
  | "fighting", "fairy" => some (5/8)
  | "poison", "grass" => some (8/5)
  | "poison", "poison" => some (5/8)
  | "poison", "ground" => some (5/8)
  | "poison", "rock" => some (5/8)
  | "poison", "ghost" => some (5/8)
  | "poison", "steel" => some (391/1000)
  | "poison", "fairy" => some (8/5)
  | "poison", "bug" => some (8/5)
  | "ground", "fire" => some (8/5)
  | "ground", "electric" => some (8/5)
  | "ground", "grass" => some (5/8)
  | "ground", "poison" => some (8/5)
  | "ground", "flying" => some (391/1000)
  | "ground", "bug" => some (5/8)
  | "ground", "rock" => some (8/5)
  | "ground", "steel" => some (8/5)
  | "ground", "ground" => some (5/8)
  | "flying", "electric" => some (5/8)
  | "flying", "grass" => some (8/5)
  | "flying", "fighting" => some (8/5)
  | "flying", "bug" => some (8/5)
  | "flying", "rock" => some (5/8)
  | "flying", "steel" => some (5/8)
  | "flying", "flying" => some (5/8)
  | "psychic", "fighting" => some (8/5)
  | "psychic", "poison" => some (8/5)
  | "psychic", "psychic" => some (5/8)
  | "psychic", "dark" => some (391/1000)
  | "psychic", "steel" => some (5/8)
  | "bug", "fire" => some (5/8)
  | "bug", "grass" => some (8/5)
  | "bug", "fighting" => some (5/8)
  | "bug", "poison" => some (5/8)
  | "bug", "flying" => some (5/8)
  | "bug", "psychic" => some (8/5)
  | "bug", "ghost" => some (5/8)
  | "bug", "dark" => some (8/5)
  | "bug", "steel" => some (5/8)
  | "bug", "fairy" => some (5/8)
  | "bug", "bug" => some (5/8)
  | "rock", "fire" => some (8/5)
  | "rock", "ice" => some (8/5)
  | "rock", "fighting" => some (5/8)
  | "rock", "ground" => some (5/8)
  | "rock", "flying" => some (8/5)
  | "rock", "bug" => some (8/5)
  | "rock", "steel" => some (5/8)
  | "rock", "rock" => some (5/8)
  | "ghost", "normal" => some (391/1000)
  | "ghost", "psychic" => some (8/5)
  | "ghost", "ghost" => some (8/5)
  | "ghost", "dark" => some (5/8)
  | "dragon", "dragon" => some (8/5)
  | "dragon", "steel" => some (5/8)
  | "dragon", "fairy" => some (391/1000)
  | "dark", "fighting" => some (5/8)
  | "dark", "psychic" => some (8/5)
  | "dark", "ghost" => some (8/5)
  | "dark", "dark" => some (5/8)
  | "dark", "fairy" => some (5/8)
  | "steel", "fire" => some (5/8)
  | "steel", "water" => some (5/8)
  | "steel", "electric" => some (5/8)
  | "steel", "ice" => some (8/5)
  | "steel", "rock" => some (8/5)
  | "steel", "steel" => some (5/8)
  | "steel", "fairy" => some (8/5)
  | "fairy", "fire" => some (5/8)
  | "fairy", "fighting" => some (8/5)
  | "fairy", "poison" => some (5/8)
  | "fairy", "dragon" => some (8/5)
  | "fairy", "dark" => some (8/5)
  | "fairy", "steel" => some (5/8)
  | _, _ => none

/-- STAB (same type attack bonus) multiplier of image_generator.py. -/
def STAB_MULTIPLIER : ℚ := 6/5

/-- Embedding of calculate_type_advantage_with_stab of image_generator.py:
two nested loops over the attacking and defending type lists; a factor
`table entry * stab` is multiplied in only when the table has an entry for
the pair.  The `stab` local is the literal translation of the source
condition `attack_type in types1` (trivially true for iterated elements). -/
def calculate_type_advantage_with_stab (types1 types2 : List String) : ℚ × ℚ :=
  let effectiveness1 := types1.foldl (fun acc attack_type =>
    let stab := if attack_type ∈ types1 then STAB_MULTIPLIER else 1
    types2.foldl (fun acc2 defense_type =>
      match pokemon_go_effectiveness attack_type defense_type with
      | some m => acc2 * (m * stab)
      | none => acc2) acc) 1
  let effectiveness2 := types2.foldl (fun acc attack_type =>
    let stab := if attack_type ∈ types2 then STAB_MULTIPLIER else 1
    types1.foldl (fun acc2 defense_type =>
      match pokemon_go_effectiveness attack_type defense_type with
      | some m => acc2 * (m * stab)
      | none => acc2) acc) 1
  (effectiveness1, effectiveness2)

/-- Modelled from the claim wording of C1: `effectivenessOf(a, b)` is the
table entry for the pair and 1.0 when the table has no entry. -/
def effectivenessOf (a b : String) : ℚ :=
  (pokemon_go_effectiveness a b).getD 1

/-- Modelled from the claim wording of C1: the product, over every attacking
category a in A, of 1.2 times the product over every defending category b
in B of effectivenessOf(a, b).  Stated for comparison with the source
function calculate_type_advantage_with_stab. -/
def claim_type_multiplier (A B : List String) : ℚ :=
  (A.map (fun a => STAB_MULTIPLIER * (B.map (fun b => effectivenessOf a b)).prod)).prod

/-- Per-pair factor actually contributed by the source loops: the table entry
times the STAB bonus when the pair has an entry, and 1 (no factor at all,
in particular no STAB bonus) when it has none. -/
def stab_pair_factor (a b : String) : ℚ :=
  match pokemon_go_effectiveness a b with
  | some m => m * STAB_MULTIPLIER
  | none => 1

/-- Product over all ordered (attacker, defender) pairs of the per-pair
factor: the closed form of what the source loops compute. -/
def pair_product (A B : List String) : ℚ :=
  (A.map (fun a => (B.map (fun b => stab_pair_factor a b)).prod)).prod

/-- Value of the 2-character hex slice of a digest starting at `start`,
mirroring `int(name_hash[start:start+2], 16)` on the digit sequence. -/
def hexSliceVal (ds : List (Fin 16)) (start : ℕ) : ℕ :=
  ((ds.drop start).take 2).foldl (fun acc d => 16 * acc + d.val) 0

/-- Embedding of calculate_ivs of image_generator.py: hash the lowercased
name (the md5 hexdigest is the environment parameter `md5hex`, returning the
hex-digit sequence of the digest) and map six non-overlapping 2-digit slices,
each reduced mod 32, to the six stat boosts. -/
def calculate_ivs (md5hex : String → List (Fin 16)) (pokemon_name : String) : StatBlock :=
  let name_hash := md5hex (str_lower pokemon_name)
  { hp := hexSliceVal name_hash 0 % 32,
    attack := hexSliceVal name_hash 2 % 32,
    defense := hexSliceVal name_hash 4 % 32,
    special_attack := hexSliceVal name_hash 6 % 32,
    special_defense := hexSliceVal name_hash 8 % 32,
    speed := hexSliceVal name_hash 10 % 32 }

/-- Embedding of calculate_weighted_stats of image_generator.py. -/
def calculate_weighted_stats (stats : StatBlock) : ℚ :=
  ((stats.hp : ℚ) * (8/10) +
   (stats.attack : ℚ) * (12/10) +
   (stats.defense : ℚ) * (9/10) +
   (stats.special_attack : ℚ) * (12/10) +
   (stats.special_defense : ℚ) * (9/10) +
   (stats.speed : ℚ) * 1) / 100

/-- Embedding of calculate_battle_score of image_generator.py: add the
name-derived boosts to each base stat, weight the effective stats and scale
by the type-advantage multipliers. -/
def calculate_battle_score (md5hex : String → List (Fin 16)) (pokemon1 pokemon2 : Pokemon) :
    ℚ × ℚ :=
  let ivs1 := calculate_ivs md5hex pokemon1.name
  let ivs2 := calculate_ivs md5hex pokemon2.name
  let effective_stats1 : StatBlock :=
    { hp := pokemon1.hp + ivs1.hp,
      attack := pokemon1.attack + ivs1.attack,
      defense := pokemon1.defense + ivs1.defense,
      special_attack := pokemon1.special_attack + ivs1.special_attack,
      special_defense := pokemon1.special_defense + ivs1.special_defense,
      speed := pokemon1.speed + ivs1.speed }
  let effective_stats2 : StatBlock :=
    { hp := pokemon2.hp + ivs2.hp,
      attack := pokemon2.attack + ivs2.attack,
      defense := pokemon2.defense + ivs2.defense,
      special_attack := pokemon2.special_attack + ivs2.special_attack,
      special_defense := pokemon2.special_defense + ivs2.special_defense,
      speed := pokemon2.speed + ivs2.speed }
  let adv := calculate_type_advantage_with_stab pokemon1.types pokemon2.types
  (calculate_weighted_stats effective_stats1 * adv.1,
   calculate_weighted_stats effective_stats2 * adv.2)

/-- Modelled from the spec wording for C7: sum of the six stats scaled by
the fixed weights (hp 0.8, attack 1.2, defense 0.9, special-attack 1.2,
special-defense 0.9, speed 1.0), divided by 100. -/
def weightedStatsSpec (s : StatBlock) : ℚ :=
  ((s.hp : ℚ) * (4/5) + (s.attack : ℚ) * (6/5) + (s.defense : ℚ) * (9/10) +
   (s.special_attack : ℚ) * (6/5) + (s.special_defense : ℚ) * (9/10) +
   (s.speed : ℚ)) / 100

/-- Componentwise sum of base stats and boosts, as in the spec phrase
`stats + boosts`. -/
def addBoosts (s b : StatBlock) : StatBlock :=
  { hp := s.hp + b.hp, attack := s.attack + b.attack, defense := s.defense + b.defense,
    special_attack := s.special_attack + b.special_attack,
    special_defense := s.special_defense + b.special_defense,
    speed := s.speed + b.speed }

/-- One entry of duel.round_history (duel_manager.py lines 536-575): the
selected creature names, their battle scores, and the winner field, which
holds a player name or the literal tie marker string.  The per-player dict
keys pokemon1/2/3 and score1/2/3 are gathered into lists. -/
structure RoundData where
  pokemon_names : List String
  scores : List ℚ
  winner : String
  deriving DecidableEq

/-- Tie marker stored in the winner field of a round record. -/
def tie_marker : String := "Tie (no points awarded)"

/-- The mutable duel state of Duel.__init__ (duel_manager.py lines 14-33).
Per-player dicts are lists aligned with `players`; used_pokemon is a list
with set semantics via membership. -/
structure Duel where
  players : List Player
  rounds : ℕ
  duel_type : String
  scores : List ℕ
  current_round : ℕ
  ready_status : List Bool
  pokemon : List (Option Pokemon)
  countdown_active : Bool
  selection_phase : Bool
  used_pokemon : List String
  duel_ended : Bool
  last_selection_time : ℚ
  selection_cooldown : ℚ
  waiting_for_selection : Bool
  round_history : List RoundData
  is_triple_duel : Bool
  deriving DecidableEq

/-- Embedding of Duel.__init__. -/
def Duel.init (players : List Player) (rounds : ℕ) (duel_type : String) : Duel :=
  { players := players
    rounds := rounds
    duel_type := duel_type
    scores := players.map (fun _ => 0)
    current_round := 0
    ready_status := players.map (fun _ => false)
    pokemon := players.map (fun _ => none)
    countdown_active := false
    selection_phase := false
    used_pokemon := []
    duel_ended := false
    last_selection_time := 0
    selection_cooldown := 3
    waiting_for_selection := false
    round_history := []
    is_triple_duel := players.length == 3 }

/-- External collaborators of the duel logic, passed in as an environment:
the creature lookup (pokemon_api.get_pokemon_data, a network call), the
evolution-stage query (pokemon_api.get_evolution_stage, a network call
defaulting to 1 on failure), and the md5 hexdigest of hashlib. -/
structure Env where
  lookup : String → Option Pokemon
  evolutionStage : String → ℕ
  md5hex : String → List (Fin 16)

/-- Embedding of the LEGENDARY_POKEMON list of pokemon_api.py. -/
def LEGENDARY_POKEMON : List String :=
  ["articuno", "zapdos", "moltres", "mewtwo", "mew",
   "raikou", "entei", "suicune", "lugia", "ho-oh", "celebi",
   "regirock", "regice", "registeel", "latias", "latios", "kyogre", "groudon",
   "rayquaza", "jirachi", "deoxys",
   "uxie", "mesprit", "azelf", "dialga", "palkia", "heatran", "regigigas",
   "giratina", "cresselia", "darkrai", "shaymin", "arceus",
   "victini", "cobalion", "terrakion", "virizion", "tornadus", "thundurus",
   "reshiram", "zekrom", "landorus", "kyurem", "keldeo", "meloetta", "genesect",
   "xerneas", "yveltal", "zygarde", "diancie", "hoopa", "volcanion",
   "tapu koko", "tapu lele", "tapu bulu", "tapu fini", "cosmog", "cosmoem",
   "solgaleo", "lunala", "nihilego", "buzzwole", "pheromosa", "xurkitree",
   "celesteela", "kartana", "guzzlord", "necrozma", "magearna", "marshadow",
   "poipole", "naganadel", "stakataka", "blacephalon", "zeraora", "meltan",
   "melmetal",
   "zacian", "zamazenta", "eternatus", "kubfu", "urshifu", "zarude",
   "regieleki", "regidrago", "glastrier", "spectrier", "calyrex"]

/-- Embedding of pokemon_api.is_legendary: membership of the lowercased name
in the fixed known list. -/
def is_legendary (pokemon_name : String) : Bool :=
  LEGENDARY_POKEMON.contains (str_lower pokemon_name)

/-- Embedding of DuelManager.validate_pokemon_for_duel (duel_manager.py lines
248-284).  The source also receives the author and opponent list but never
uses them.  Returns the (is_valid, message) pair of the source. -/
def validate_pokemon_for_duel (env : Env) (pokemon_data : Pokemon) (duel_type : String)
    (used_pokemon : List String) : Bool × String :=
  let pokemon_name := str_lower pokemon_data.name
  if pokemon_name ∈ used_pokemon then
    (false, "This Pokemon has already been used in this duel!")
  else
    let base_name := base_form_name pokemon_data.api_name
    if duel_type = "1st-evolution" then
      if env.evolutionStage pokemon_data.api_name ≠ 1 then
        (false, "Only 1st evolution Pokemon are allowed in this duel!")
      else (true, "Valid")
    else if duel_type = "2nd-evolution" then
      if env.evolutionStage pokemon_data.api_name ≠ 2 then
        (false, "Only 2nd evolution Pokemon are allowed in this duel!")
      else (true, "Valid")
    else if duel_type = "legendaries" then
      if ¬ (is_legendary pokemon_data.api_name ∨ is_legendary base_name) then
        (false, "Only Legendary Pokemon are allowed in this duel!")
      else (true, "Valid")
    else if duel_type = "normal" then
      if is_legendary pokemon_data.api_name ∨ is_legendary base_name then
        (false, "Legendary Pokemon are not allowed in normal duels!")
      else (true, "Valid")
    else (true, "Valid")

/-- Embedding of DuelManager.end_duel as far as the duel state is concerned:
the duel is marked ended (the winner computation and history emission are
modelled by the pure functions below). -/
def Duel.end_state (d : Duel) : Duel :=
  { d with duel_ended := true }

/-- Loop of Python max with a key function, specialised to the score dict:
carries the (best index, best value) pair and the index of the next element,
replacing the best only on a strictly greater value (so the first maximal
element wins ties, as max does on the insertion-ordered dict keys). -/
def pymax_go (b : ℕ × ℕ) (i : ℕ) : List ℕ → ℕ × ℕ
  | [] => b
  | v :: vs => if b.2 < v then pymax_go (i, v) (i + 1) vs else pymax_go b (i + 1) vs

/-- Index of the first maximal score, mirroring
`max(duel.scores, key=duel.scores.get)` over the insertion-ordered dict. -/
def pymax_index : List ℕ → ℕ
  | [] => 0
  | v :: vs => (pymax_go (0, v) 1 vs).1

/-- Winner id computed by DuelManager.end_duel line 360. -/
def Duel.winner_id (d : Duel) : ℕ :=
  ((d.players.getD (pymax_index d.scores) default)).id

/-- Loser list computed by DuelManager.end_duel line 362: every player whose
id differs from the winner id. -/
def Duel.losers (d : Duel) : List Player :=
  d.players.filter (fun p => p.id ≠ d.winner_id)

/-- Match history record built by DuelManager.add_to_history (lines 57-96):
participant ids and names, final scores, round count, duel type, winner id,
loser ids and the triple flag.  The wall-clock timestamp of the source is
external and omitted; the 2-player record stores the single loser, here kept
as a one-element list. -/
structure DuelRecord where
  player_ids : List ℕ
  player_names : List String
  final_scores : List ℕ
  rounds : ℕ
  duel_type : String
  winner : ℕ
  losers : List ℕ
  is_triple : Bool
  deriving DecidableEq

/-- Record written at match end for the given duel state. -/
def make_duel_record (d : Duel) : DuelRecord :=
  { player_ids := d.players.map Player.id
    player_names := d.players.map Player.name
    final_scores := d.scores
    rounds := d.rounds
    duel_type := d.duel_type
    winner := d.winner_id
    losers := d.losers.map Player.id
    is_triple := d.is_triple_duel }

/-- Per-player retention step of DuelManager.add_to_history lines 98-108:
append the record, then keep only the last 20 entries when the list has
grown beyond 20. -/
def add_record {α : Type} (h : List α) (r : α) : List α :=
  let h2 := h ++ [r]
  if h2.length > 20 then h2.drop (h2.length - 20) else h2

/-- Score update of the penalty branch (duel_manager.py lines 480-482):
every opponent of the author gains one point. -/
def award_opponent_points (scores : List ℕ) (author : ℕ) : List ℕ :=
  scores.mapIdx (fun i s => if i = author then s else s + 1)

/-- Score update of a round win: one point to the player at the given
index. -/
def award_point (scores : List ℕ) (winner : ℕ) : List ℕ :=
  scores.mapIdx (fun i s => if i = winner then s + 1 else s)

/-- Averaged battle score of a creature against its two opponents in a
triple duel (duel_manager.py lines 523-528). -/
def triple_avg_score (md5hex : String → List (Fin 16)) (p q r : Pokemon) : ℚ :=
  ((calculate_battle_score md5hex p q).1 + (calculate_battle_score md5hex p r).1) / 2

/-- Common tail of a resolved round (duel_manager.py lines 575-665): append
the round record, close the selection phase, advance the round index, then
either end the duel when some score reached the majority threshold or reset
the per-round state and reopen for the next round. -/
def finish_round (d : Duel) (rd : RoundData) (scores' : List ℕ) : Duel :=
  let d' := { d with
    scores := scores'
    round_history := d.round_history ++ [rd]
    waiting_for_selection := false
    selection_phase := false
    current_round := d.current_round + 1 }
  if d'.scores.any (fun s => d'.rounds / 2 + 1 ≤ s) then d'.end_state
  else { d' with
    pokemon := d'.players.map (fun _ => none)
    countdown_active := false
    waiting_for_selection := true }

/-- Round resolution (duel_manager.py lines 516-575): battle scores for the
stored selections, winner determination (strict comparisons for two players,
unique argmax via the filtered winner list for three), score update and the
finishing bookkeeping. -/
def resolve_round (env : Env) (d : Duel) : Duel :=
  if d.is_triple_duel then
    match d.pokemon with
    | [some p0, some p1, some p2] =>
      let s0 := triple_avg_score env.md5hex p0 p1 p2
      let s1 := triple_avg_score env.md5hex p1 p2 p0
      let s2 := triple_avg_score env.md5hex p2 p0 p1
      let max_score := max (max s0 s1) s2
      let winners := (List.range 3).filter (fun i => [s0, s1, s2].getD i 0 = max_score)
      let wsc : String × List ℕ :=
        match winners with
        | [i] => ((d.players.getD i default).name, award_point d.scores i)
        | _ => (tie_marker, d.scores)
      finish_round d
        { pokemon_names := [p0.name, p1.name, p2.name]
          scores := [s0, s1, s2]
          winner := wsc.1 } wsc.2
    | _ => d
  else
    match d.pokemon with
    | [some p0, some p1] =>
      let bs := calculate_battle_score env.md5hex p0 p1
      let wsc : String × List ℕ :=
        if bs.1 > bs.2 then ((d.players.getD 0 default).name, award_point d.scores 0)
        else if bs.2 > bs.1 then ((d.players.getD 1 default).name, award_point d.scores 1)
        else (tie_marker, d.scores)
      finish_round d
        { pokemon_names := [p0.name, p1.name]
          scores := [bs.1, bs.2]
          winner := wsc.1 } wsc.2
    | _ => d

/-- All-selected check of duel_manager.py line 516: resolve as soon as every
player has a stored selection. -/
def check_all_selected (env : Env) (d : Duel) : Duel :=
  if d.pokemon.all Option.isSome then resolve_round env d else d

/-- Penalty branch of duel_manager.py lines 478-509: every opponent gains a
point; the duel ends when the threshold check now passes, otherwise the
per-round state is reset and the next ready check is posted (no history
entry, no round-index change). -/
def penalty_branch (d : Duel) (author : ℕ) : Duel :=
  let d' := { d with scores := award_opponent_points d.scores author }
  if d'.scores.any (fun s => d'.rounds / 2 + 1 ≤ s) then d'.end_state
  else { d' with
    pokemon := d'.players.map (fun _ => none)
    countdown_active := false
    selection_phase := false
    waiting_for_selection := false }

/-- Selection processing of duel_manager.py lines 463-516: when the author
has no stored selection yet, look the name up (a failed lookup only informs
the author), validate it (invalid selections take the penalty branch), and
on success store it and add its lowercased name to the used set; in every
surviving path the all-selected check runs. -/
def process_selection (env : Env) (d : Duel) (author : ℕ) (content : String) : Duel :=
  if (d.pokemon.getD author none).isNone then
    match env.lookup content with
    | none => d
    | some pokemon_data =>
      if (validate_pokemon_for_duel env pokemon_data d.duel_type d.used_pokemon).1 then
        check_all_selected env
          { d with
            pokemon := d.pokemon.set author (some pokemon_data)
            used_pokemon := d.used_pokemon.insert (str_lower pokemon_data.name) }
      else penalty_branch d author
  else check_all_selected env d

/-- Embedding of DuelManager.handle_message (duel_manager.py lines 436-669)
for a message in the duel channel; the author is the index of the sender in
the player list (messages from non-participants are ignored, as is anything
outside an open selection window or within the cooldown comparison). -/
def handle_message (env : Env) (d : Duel) (author : ℕ) (content : String) (now : ℚ) : Duel :=
  if d.duel_ended then d
  else if author < d.players.length then
    if d.selection_phase ∧ d.waiting_for_selection then
      if now - d.last_selection_time < d.selection_cooldown then d
      else process_selection env d author content
    else d
  else d

/-- Embedding of DuelManager.handle_reaction (duel_manager.py lines 200-237):
a ready reaction from a participant marks them ready; when every participant
is ready and no countdown is running, the countdown fires and the selection
window opens (ready flags reset for the next round). -/
def handle_reaction (d : Duel) (user : ℕ) : Duel :=
  if d.duel_ended then d
  else if user < d.players.length then
    let d' := { d with ready_status := d.ready_status.set user true }
    if d'.ready_status.all (fun b => b) ∧ ¬ d'.countdown_active then
      { d' with
        countdown_active := true
        selection_phase := true
        ready_status := d'.players.map (fun _ => false)
        waiting_for_selection := true }
    else d'
  else d

/-- Inbound platform events dispatched to one duel. -/
inductive Event where
  | reaction (user : ℕ)
  | msg (env : Env) (author : ℕ) (content : String) (now : ℚ)

/-- One dispatched event. -/
def step (d : Duel) : Event → Duel
  | .reaction u => handle_reaction d u
  | .msg env a c t => handle_message env d a c t

/-- A whole match run: the fold of the inbound events over a duel state. -/
def run (d : Duel) (es : List Event) : Duel :=
  es.foldl step d

/-- Invariant used for claim C3: the round-count field is constant and the
terminal flag holds exactly when some score has reached the majority
threshold rounds / 2 + 1. -/
def EndInv (r : ℕ) (d : Duel) : Prop :=
  d.rounds = r ∧ (d.duel_ended = true ↔ ∃ s ∈ d.scores, r / 2 + 1 ≤ s)

/-- Two concrete participants for closed witness statements. -/
def playersAB : List Player := [⟨1, "A"⟩, ⟨2, "B"⟩]

/-- Three concrete participants for closed witness statements. -/
def playersABC : List Player := [⟨1, "A"⟩, ⟨2, "B"⟩, ⟨3, "C"⟩]

/-- Concrete electric-type creature for closed witness statements. -/
def pokePikachu : Pokemon :=
  { name := "Pikachu", api_name := "pikachu", hp := 35, attack := 55, defense := 40,
    special_attack := 50, special_defense := 50, speed := 90, types := ["electric"] }

/-- Concrete normal-type creature for closed witness statements. -/
def pokeEevee : Pokemon :=
  { name := "Eevee", api_name := "eevee", hp := 55, attack := 55, defense := 50,
    special_attack := 45, special_defense := 65, speed := 55, types := ["normal"] }

/-- Concrete non-legendary creature for the penalty witness. -/
def pokeRattata : Pokemon :=
  { name := "Rattata", api_name := "rattata", hp := 30, attack := 56, defense := 35,
    special_attack := 25, special_defense := 35, speed := 72, types := ["normal"] }

/-- Concrete environment for closed witness statements: a three-name lookup
table, evolution stage constantly 1 and the zero digest. -/
def envDuel : Env :=
  { lookup := fun s =>
      if s = "pikachu" then some pokePikachu
      else if s = "eevee" then some pokeEevee
      else if s = "rattata" then some pokeRattata
      else none
    evolutionStage := fun _ => 1
    md5hex := fun _ => List.replicate 32 0 }

/-- Ended 3-way duel state with two equal maximal scores, as produced by two
ineligible-selection penalties against the first participant. -/
def dTieEnd : Duel :=
  { Duel.init playersABC 3 "legendaries" with scores := [0, 2, 2] }

/-- Two-player duel state with an open selection window, for the penalty
witness. -/
def dSelecting : Duel :=
  { Duel.init playersAB 3 "legendaries" with
      selection_phase := true, waiting_for_selection := true, countdown_active := true }

/-- Two-player duel state whose used set already contains a key, for the
no-reuse witness. -/
def dUsed : Duel :=
  { Duel.init playersAB 3 "normal" with used_pokemon := ["pikachu"] }

/-- Two-player duel state with both selections stored, for the round
resolution witness. -/
def dResolve2 : Duel :=
  { Duel.init playersAB 3 "normal" with
      selection_phase := true, waiting_for_selection := true, countdown_active := true,
      pokemon := [some pokePikachu, some pokeEevee],
      used_pokemon := ["eevee", "pikachu"] }

/-- Concrete md5 stand-in used by closed witness statements: a constant
digest of 32 zero digits. -/
def md5zero : String → List (Fin 16) := fun _ => List.replicate 32 0

lemma inner_stab_foldl (a : String) (stab : ℚ) (B : List String) (acc : ℚ) :
    B.foldl (fun acc2 defense_type =>
      match pokemon_go_effectiveness a defense_type with
      | some m => acc2 * (m * stab)
      | none => acc2) acc
    = acc * (B.map (fun b =>
        match pokemon_go_effectiveness a b with
        | some m => m * stab
        | none => 1)).prod := by
  induction B generalizing acc with
  | nil => simp
  | cons b B ih =>
    simp only [List.foldl_cons, List.map_cons, List.prod_cons, ih]
    cases pokemon_go_effectiveness a b with
    | none => dsimp only; ring
    | some m => dsimp only; ring

lemma outer_stab_foldl (T B : List String) (sub : List String) (hsub : ∀ a ∈ sub, a ∈ T)
    (acc : ℚ) :
    sub.foldl (fun acc1 attack_type =>
      B.foldl (fun acc2 defense_type =>
        match pokemon_go_effectiveness attack_type defense_type with
        | some m => acc2 * (m * (if attack_type ∈ T then STAB_MULTIPLIER else 1))
        | none => acc2) acc1) acc
    = acc * (sub.map (fun a => (B.map (fun b => stab_pair_factor a b)).prod)).prod := by
  induction sub generalizing acc with
  | nil => simp
  | cons a sub ih =>
    have ha : a ∈ T := hsub a (by simp)
    simp only [List.foldl_cons, List.map_cons, List.prod_cons]
    rw [ih (fun x hx => hsub x (by simp [hx]))]
    rw [inner_stab_foldl]
    have hfac : (fun b => match pokemon_go_effectiveness a b with
        | some m => m * (if a ∈ T then STAB_MULTIPLIER else 1)
        | none => 1) = fun b => stab_pair_factor a b := by
      funext b
      simp only [stab_pair_factor, if_pos ha]
    rw [hfac]
    ring

/-- C1 (amended): the first multiplier returned by
calculate_type_advantage_with_stab equals the product, over every ordered
pair of an attacking category a in A and a defending category b in B, of
`table(a, b) * 1.2` when the effectiveness table has an entry for the pair,
and 1.0 (with no STAB factor at all) when it has none; the second returned
multiplier is the symmetric computation with A and B swapped. -/
theorem type_advantage_stab_per_pair (A B : List String) :
    calculate_type_advantage_with_stab A B = (pair_product A B, pair_product B A) := by
  unfold calculate_type_advantage_with_stab pair_product
  dsimp only
  rw [outer_stab_foldl A B A (fun _ h => h) 1, outer_stab_foldl B A B (fun _ h => h) 1]
  simp

/-- C1 (counterexample): for A = B = ["normal"] the source function returns
1.0 as the first multiplier (the table has no entry for the pair, so no STAB
factor is applied either), while the formula of the claim — 1.2 times the
defaulted effectiveness 1.0 — yields 1.2. -/
theorem type_advantage_claim_counterexample :
    (calculate_type_advantage_with_stab ["normal"] ["normal"]).1 ≠
      claim_type_multiplier ["normal"] ["normal"] := by
  have h1 : pokemon_go_effectiveness "normal" "normal" = none := rfl
  simp only [calculate_type_advantage_with_stab, claim_type_multiplier, effectivenessOf,
    STAB_MULTIPLIER, h1, List.foldl_cons, List.foldl_nil, List.map_cons, List.map_nil,
    List.prod_cons, List.prod_nil, Option.getD_none]
  norm_num

/-- C7: calculate_battle_score returns componentwise the weighted sum of the
base stats plus the name-derived boosts (weights hp 0.8, attack 1.2, defense
0.9, special-attack 1.2, special-defense 0.9, speed 1.0, divided by 100)
scaled by the respective multiplier of the type-advantage function; the
whole computation is a pure function of its inputs. -/
theorem battle_score_weighted_formula (md5hex : String → List (Fin 16)) (p1 p2 : Pokemon) :
    calculate_battle_score md5hex p1 p2 =
      (weightedStatsSpec (addBoosts p1.baseStats (calculate_ivs md5hex p1.name)) *
         (calculate_type_advantage_with_stab p1.types p2.types).1,
       weightedStatsSpec (addBoosts p2.baseStats (calculate_ivs md5hex p2.name)) *
         (calculate_type_advantage_with_stab p1.types p2.types).2) := by
  unfold calculate_battle_score weightedStatsSpec addBoosts Pokemon.baseStats
    calculate_weighted_stats
  dsimp only
  simp only [Prod.mk.injEq]
  constructor <;> · push_cast; ring

lemma mod32_le_31 (n : ℕ) : n % 32 ≤ 31 :=
  Nat.le_of_lt_succ (Nat.mod_lt n (by norm_num))

/-- C8: the six values of calculate_ivs are each at most 31 (and being
naturals, at least 0), and the function factors through the lowercased name,
so two names equal up to case give identical boosts; this holds for every
digest function, in particular the md5 hexdigest. -/
theorem calculate_ivs_bounded_case_insensitive (md5hex : String → List (Fin 16))
    (name : String) :
    ((calculate_ivs md5hex name).hp ≤ 31 ∧
     (calculate_ivs md5hex name).attack ≤ 31 ∧
     (calculate_ivs md5hex name).defense ≤ 31 ∧
     (calculate_ivs md5hex name).special_attack ≤ 31 ∧
     (calculate_ivs md5hex name).special_defense ≤ 31 ∧
     (calculate_ivs md5hex name).speed ≤ 31) ∧
    ∀ name2 : String, str_lower name = str_lower name2 →
      calculate_ivs md5hex name = calculate_ivs md5hex name2 := by
  constructor
  · unfold calculate_ivs
    exact ⟨mod32_le_31 _, mod32_le_31 _, mod32_le_31 _, mod32_le_31 _,
      mod32_le_31 _, mod32_le_31 _⟩
  · intro name2 h
    unfold calculate_ivs
    rw [h]

/-- C8 (witness): concrete instance at a constant digest and the names
"Pikachu" and "PIKACHU". -/
theorem calculate_ivs_witness :
    str_lower "Pikachu" = str_lower "PIKACHU" ∧
      calculate_ivs md5zero "Pikachu" = calculate_ivs md5zero "PIKACHU" ∧
      (calculate_ivs md5zero "Pikachu").hp ≤ 31 :=
  ⟨by decide,
   (calculate_ivs_bounded_case_insensitive md5zero "Pikachu").2 "PIKACHU" (by decide),
   (calculate_ivs_bounded_case_insensitive md5zero "Pikachu").1.1⟩

lemma add_record_length_le {α : Type} (h : List α) (r : α) (hle : h.length ≤ 20) :
    (add_record h r).length ≤ 20 := by
  unfold add_record
  dsimp only
  split
  · simp only [List.length_drop, List.length_append, List.length_cons]
    omega
  · rename_i hnot
    simp only [List.length_append, List.length_cons] at hnot ⊢
    omega

lemma foldl_add_record_length {α : Type} (rs : List α) :
    ∀ h : List α, h.length ≤ 20 → (rs.foldl add_record h).length ≤ 20 := by
  induction rs with
  | nil => intro h hle; simpa using hle
  | cons r rs ih =>
    intro h hle
    simpa using ih (add_record h r) (add_record_length_le h r hle)

/-- C9: folding any sequence of appended records from an empty history keeps
the per-participant history at 20 records or fewer, and appending one record
to a history already holding exactly 20 drops the oldest record: the result
is the previous history without its head, followed by the new record (the 20
most recent, most recent last). -/
theorem history_retention {α : Type} :
    (∀ rs : List α, (rs.foldl add_record ([] : List α)).length ≤ 20) ∧
    ∀ (h : List α) (r : α), h.length = 20 →
      add_record h r = h.drop 1 ++ [r] ∧ (add_record h r).length = 20 := by
  constructor
  · intro rs
    exact foldl_add_record_length rs [] (by simp)
  · intro h r hlen
    have h21 : (h ++ [r]).length = 21 := by simp [hlen]
    have hdrop : add_record h r = (h ++ [r]).drop 1 := by
      unfold add_record
      dsimp only
      rw [if_pos (by omega), h21]
    cases h with
    | nil => simp at hlen
    | cons a t =>
      constructor
      · rw [hdrop]
        simp
      · rw [hdrop]
        simp only [List.length_drop, h21]

/-- C9 (witness): a history of exactly 20 records, appended to, becomes its
tail followed by the new record and stays at 20 records. -/
theorem history_retention_witness :
    (List.range 20).length = 20 ∧
      add_record (List.range 20) 20 = (List.range 20).drop 1 ++ [20] ∧
      (add_record (List.range 20) 20).length = 20 := by
  refine ⟨by decide, ?_, ?_⟩
  · exact (history_retention.2 (List.range 20) 20 (by decide)).1
  · exact (history_retention.2 (List.range 20) 20 (by decide)).2

lemma list_getD_mem {α : Type} (l : List α) (n : ℕ) (d : α) (h : n < l.length) :
    l.getD n d ∈ l := by
  induction l generalizing n with
  | nil => simp at h
  | cons a t ih =>
    cases n with
    | zero => simp
    | succ n =>
      simp only [List.getD_cons_succ]
      exact List.mem_cons_of_mem _ (ih n (by simpa using h))

lemma pymax_go_spec (vs : List ℕ) : ∀ (b : ℕ × ℕ) (i : ℕ),
    (pymax_go b i vs = b ∧ ∀ v ∈ vs, v ≤ b.2) ∨
    (∃ k, k < vs.length ∧ pymax_go b i vs = (i + k, vs.getD k 0) ∧
      b.2 < vs.getD k 0 ∧ (∀ v ∈ vs, v ≤ vs.getD k 0) ∧
      ∀ j < k, vs.getD j 0 < vs.getD k 0) := by
  induction vs with
  | nil =>
    intro b i
    left
    exact ⟨rfl, by simp⟩
  | cons v vs ih =>
    intro b i
    by_cases hb : b.2 < v
    · have hgo : pymax_go b i (v :: vs) = pymax_go (i, v) (i + 1) vs := by
        simp [pymax_go, hb]
      rcases ih (i, v) (i + 1) with ⟨heq, hall⟩ | ⟨k, hk, heq, hlt, hall, hfirst⟩
    -- the new head becomes the running best
      · right
        refine ⟨0, by simp, ?_, by simpa using hb, ?_, by omega⟩
        · rw [hgo, heq]
          simp
        · intro u hu
          rcases List.mem_cons.mp hu with rfl | hu
          · simp
          · simp only [List.getD_cons_zero]
            exact hall u hu
      · have hv : v < vs.getD k 0 := hlt
        right
        refine ⟨k + 1, by simpa using hk, ?_, ?_, ?_, ?_⟩
        · rw [hgo, heq]
          simp only [List.getD_cons_succ, Prod.mk.injEq]
          exact ⟨by omega, trivial⟩
        · simp only [List.getD_cons_succ]
          omega
        · intro u hu
          simp only [List.getD_cons_succ]
          rcases List.mem_cons.mp hu with rfl | hu
          · exact le_of_lt hv
          · exact hall u hu
        · intro j hj
          cases j with
          | zero =>
            simp only [List.getD_cons_zero, List.getD_cons_succ]
            exact hv
          | succ j =>
            simp only [List.getD_cons_succ]
            exact hfirst j (by omega)
    · have hgo : pymax_go b i (v :: vs) = pymax_go b (i + 1) vs := by
        simp [pymax_go, hb]
      rcases ih b (i + 1) with ⟨heq, hall⟩ | ⟨k, hk, heq, hlt, hall, hfirst⟩
      · left
        refine ⟨by rw [hgo, heq], ?_⟩
        intro u hu
        rcases List.mem_cons.mp hu with rfl | hu
        · omega
        · exact hall u hu
      · right
        refine ⟨k + 1, by simpa using hk, ?_, ?_, ?_, ?_⟩
        · rw [hgo, heq]
          simp only [List.getD_cons_succ, Prod.mk.injEq]
          exact ⟨by omega, trivial⟩
        · simp only [List.getD_cons_succ]
          exact hlt
        · intro u hu
          simp only [List.getD_cons_succ]
          rcases List.mem_cons.mp hu with rfl | hu
          · omega
          · exact hall u hu
        · intro j hj
          cases j with
          | zero =>
            simp only [List.getD_cons_zero, List.getD_cons_succ]
            omega
          | succ j =>
            simp only [List.getD_cons_succ]
            exact hfirst j (by omega)

lemma pymax_index_spec (s : List ℕ) (hne : s ≠ []) :
    pymax_index s < s.length ∧
    (∀ j < s.length, s.getD j 0 ≤ s.getD (pymax_index s) 0) ∧
    (∀ j < pymax_index s, s.getD j 0 < s.getD (pymax_index s) 0) := by
  cases s with
  | nil => simp at hne
  | cons v vs =>
    rcases pymax_go_spec vs (0, v) 1 with ⟨heq, hall⟩ | ⟨k, hk, heq, hlt, hall, hfirst⟩
    · have hidx : pymax_index (v :: vs) = 0 := by simp [pymax_index, heq]
      rw [hidx]
      refine ⟨by simp, ?_, by omega⟩
      intro j hj
      cases j with
      | zero => simp
      | succ j =>
        simp only [List.getD_cons_succ, List.getD_cons_zero]
        exact hall _ (list_getD_mem vs j 0 (by simpa using hj))
    · have hidx : pymax_index (v :: vs) = k + 1 := by
        simp only [pymax_index, heq]
        omega
      rw [hidx]
      have hv : v < vs.getD k 0 := hlt
      refine ⟨by simpa using hk, ?_, ?_⟩
      · intro j hj
        simp only [List.getD_cons_succ]
        cases j with
        | zero =>
          simp only [List.getD_cons_zero]
          exact le_of_lt hv
        | succ j =>
          simp only [List.getD_cons_succ]
          exact hall _ (list_getD_mem vs j 0 (by simpa using hj))
      · intro j hj
        simp only [List.getD_cons_succ]
        cases j with
        | zero =>
          simp only [List.getD_cons_zero]
          exact hv
        | succ j =>
          simp only [List.getD_cons_succ]
          exact hfirst j (by omega)

lemma filter_ne_id_eraseIdx (l : List Player) :
    ∀ i : ℕ, i < l.length → ((l.map Player.id).Nodup) →
    l.filter (fun p => p.id ≠ (l.getD i default).id) = l.eraseIdx i := by
  induction l with
  | nil => intro i hi; simp at hi
  | cons a t ih =>
    intro i hi hnd
    simp only [List.map_cons, List.nodup_cons] at hnd
    obtain ⟨hna, hndt⟩ := hnd
    cases i with
    | zero =>
      simp only [List.getD_cons_zero, List.eraseIdx_cons_zero]
      rw [List.filter_cons]
      have h1 : (decide (a.id ≠ a.id)) = false := by simp
      rw [h1]
      simp only [Bool.false_eq_true, if_false]
      apply List.filter_eq_self.mpr
      intro p hp
      simp only [decide_eq_true_eq]
      intro hcontra
      exact hna (hcontra ▸ List.mem_map_of_mem Player.id hp)
    | succ i =>
      simp only [List.getD_cons_succ, List.eraseIdx_cons_succ]
      have hit : i < t.length := by simpa using hi
      have hw : (t.getD i default) ∈ t := list_getD_mem t i default hit
      have haw : a.id ≠ (t.getD i default).id := by
        intro hcontra
        exact hna (hcontra ▸ List.mem_map_of_mem Player.id hw)
      rw [List.filter_cons]
      have h1 : (decide (a.id ≠ (t.getD i default).id)) = true := by
        simpa using haw
      rw [h1]
      simp only [if_true]
      rw [ih i hit hndt]

/-- C10: at match end the declared winner is the participant at the first
index attaining the maximal score (Python max over the insertion-ordered
score dict keeps the first of equal maxima), and every other participant —
including any participant with an equal score — appears in the loser list of
the history record. -/
theorem end_duel_winner_first_argmax (d : Duel)
    (hne : d.players ≠ [])
    (hlen : d.scores.length = d.players.length)
    (hnd : (d.players.map Player.id).Nodup) :
    pymax_index d.scores < d.players.length ∧
    (∀ j < d.scores.length, d.scores.getD j 0 ≤ d.scores.getD (pymax_index d.scores) 0) ∧
    (∀ j < pymax_index d.scores, d.scores.getD j 0 < d.scores.getD (pymax_index d.scores) 0) ∧
    (make_duel_record d).winner = (d.players.getD (pymax_index d.scores) default).id ∧
    (make_duel_record d).losers =
      (d.players.eraseIdx (pymax_index d.scores)).map Player.id := by
  have hsne : d.scores ≠ [] := by
    intro hcontra
    rw [hcontra] at hlen
    exact hne (List.length_eq_zero.mp hlen.symm)
  obtain ⟨h1, h2, h3⟩ := pymax_index_spec d.scores hsne
  have hip : pymax_index d.scores < d.players.length := by omega
  refine ⟨hip, h2, h3, rfl, ?_⟩
  show (d.losers.map Player.id) = _
  unfold Duel.losers Duel.winner_id
  rw [filter_ne_id_eraseIdx d.players (pymax_index d.scores) hip hnd]

/-- C10 (witness): a 3-way duel that ended with scores 0, 2, 2 — two equal
maximal scores — declares the earlier participant (id 2) the winner and
lists the equally scored participant (id 3) among the losers. -/
theorem end_duel_winner_witness :
    dTieEnd.players ≠ [] ∧
    dTieEnd.scores.length = dTieEnd.players.length ∧
    (dTieEnd.players.map Player.id).Nodup ∧
    (make_duel_record dTieEnd).winner =
      (dTieEnd.players.getD (pymax_index dTieEnd.scores) default).id ∧
    (make_duel_record dTieEnd).losers =
      (dTieEnd.players.eraseIdx (pymax_index dTieEnd.scores)).map Player.id :=
  ⟨by decide, by decide, by decide,
   (end_duel_winner_first_argmax dTieEnd (by decide) (by decide) (by decide)).2.2.2.1,
   (end_duel_winner_first_argmax dTieEnd (by decide) (by decide) (by decide)).2.2.2.2⟩

lemma finish_round_facts (d : Duel) (rd : RoundData) (s' : List ℕ) :
    (finish_round d rd s').round_history = d.round_history ++ [rd] ∧
    (finish_round d rd s').current_round = d.current_round + 1 ∧
    (finish_round d rd s').scores = s' ∧
    (finish_round d rd s').rounds = d.rounds ∧
    (finish_round d rd s').used_pokemon = d.used_pokemon ∧
    (finish_round d rd s').last_selection_time = d.last_selection_time := by
  unfold finish_round Duel.end_state
  dsimp only
  split <;> simp

lemma finish_round_ended_iff (d : Duel) (rd : RoundData) (s' : List ℕ)
    (h0 : d.duel_ended = false) :
    (finish_round d rd s').duel_ended = true ↔
      ∃ s ∈ s', d.rounds / 2 + 1 ≤ s := by
  unfold finish_round Duel.end_state
  dsimp only
  split
  · rename_i hc
    simp only [List.any_eq_true, decide_eq_true_eq] at hc
    simpa using hc
  · rename_i hc
    rw [Bool.not_eq_true] at hc
    rw [List.any_eq_false] at hc
    simp only [decide_eq_true_eq] at hc
    simp only [h0]
    constructor
    · intro hfalse
      exact absurd hfalse (by simp)
    · rintro ⟨s, hs, hle⟩
      exact absurd hle (hc s hs)

lemma penalty_branch_facts (d : Duel) (a : ℕ) :
    (penalty_branch d a).scores = award_opponent_points d.scores a ∧
    (penalty_branch d a).round_history = d.round_history ∧
    (penalty_branch d a).current_round = d.current_round ∧
    (penalty_branch d a).rounds = d.rounds ∧
    (penalty_branch d a).used_pokemon = d.used_pokemon ∧
    (penalty_branch d a).last_selection_time = d.last_selection_time := by
  unfold penalty_branch Duel.end_state
  dsimp only
  split <;> simp

lemma penalty_branch_ended_iff (d : Duel) (a : ℕ) (h0 : d.duel_ended = false) :
    (penalty_branch d a).duel_ended = true ↔
      ∃ s ∈ award_opponent_points d.scores a, d.rounds / 2 + 1 ≤ s := by
  unfold penalty_branch Duel.end_state
  dsimp only
  split
  · rename_i hc
    simp only [List.any_eq_true, decide_eq_true_eq] at hc
    simpa using hc
  · rename_i hc
    rw [Bool.not_eq_true] at hc
    rw [List.any_eq_false] at hc
    simp only [decide_eq_true_eq] at hc
    simp only [h0]
    constructor
    · intro hfalse
      exact absurd hfalse (by simp)
    · rintro ⟨s, hs, hle⟩
      exact absurd hle (hc s hs)

lemma penalty_branch_not_ended (d : Duel) (a : ℕ)
    (hne : (penalty_branch d a).duel_ended = false) :
    (penalty_branch d a).selection_phase = false ∧
    (penalty_branch d a).waiting_for_selection = false := by
  unfold penalty_branch Duel.end_state at hne ⊢
  dsimp only at hne ⊢
  split_ifs at hne ⊢ with hc
  exact ⟨rfl, rfl⟩

lemma finish_round_endinv (r : ℕ) (d : Duel) (rd : RoundData) (s' : List ℕ)
    (h0 : d.duel_ended = false) (hr : d.rounds = r) : EndInv r (finish_round d rd s') := by
  refine ⟨?_, ?_⟩
  · rw [(finish_round_facts d rd s').2.2.2.1, hr]
  · rw [(finish_round_facts d rd s').2.2.1, finish_round_ended_iff d rd s' h0, hr]

lemma penalty_branch_endinv (r : ℕ) (d : Duel) (a : ℕ)
    (h0 : d.duel_ended = false) (hr : d.rounds = r) : EndInv r (penalty_branch d a) := by
  refine ⟨?_, ?_⟩
  · rw [(penalty_branch_facts d a).2.2.2.1, hr]
  · rw [(penalty_branch_facts d a).1, penalty_branch_ended_iff d a h0, hr]

lemma resolve_round_endinv (r : ℕ) (env : Env) (d : Duel)
    (h0 : d.duel_ended = false) (hInv : EndInv r d) : EndInv r (resolve_round env d) := by
  unfold resolve_round
  split
  · split
    · exact finish_round_endinv r _ _ _ h0 hInv.1
    · exact hInv
  · split
    · exact finish_round_endinv r _ _ _ h0 hInv.1
    · exact hInv

lemma check_all_selected_endinv (r : ℕ) (env : Env) (d : Duel)
    (h0 : d.duel_ended = false) (hInv : EndInv r d) : EndInv r (check_all_selected env d) := by
  unfold check_all_selected
  split
  · exact resolve_round_endinv r env d h0 hInv
  · exact hInv

lemma process_selection_endinv (r : ℕ) (env : Env) (d : Duel) (a : ℕ) (c : String)
    (h0 : d.duel_ended = false) (hInv : EndInv r d) :
    EndInv r (process_selection env d a c) := by
  unfold process_selection
  split
  · split
    · exact hInv
    · split
      · exact check_all_selected_endinv r env _ h0 ⟨hInv.1, by simpa using hInv.2⟩
      · exact penalty_branch_endinv r d a h0 hInv.1
  · exact check_all_selected_endinv r env d h0 hInv

lemma handle_message_endinv (r : ℕ) (env : Env) (d : Duel) (a : ℕ) (c : String) (t : ℚ)
    (hInv : EndInv r d) : EndInv r (handle_message env d a c t) := by
  unfold handle_message
  split
  · exact hInv
  · rename_i hend
    rw [Bool.not_eq_true] at hend
    split
    · split
      · split
        · exact hInv
        · exact process_selection_endinv r env d a c hend hInv
      · exact hInv
    · exact hInv

lemma handle_reaction_endinv (r : ℕ) (d : Duel) (u : ℕ) (hInv : EndInv r d) :
    EndInv r (handle_reaction d u) := by
  unfold handle_reaction
  dsimp only
  split
  · exact hInv
  · split
    · split
      · exact ⟨hInv.1, by simpa using hInv.2⟩
      · exact ⟨hInv.1, by simpa using hInv.2⟩
    · exact hInv

lemma step_endinv (r : ℕ) (d : Duel) (e : Event) (hInv : EndInv r d) :
    EndInv r (step d e) := by
  cases e with
  | reaction u => exact handle_reaction_endinv r d u hInv
  | msg env a c t => exact handle_message_endinv r env d a c t hInv

lemma run_endinv (r : ℕ) (es : List Event) : ∀ d : Duel, EndInv r d → EndInv r (run d es) := by
  induction es with
  | nil => intro d h; exact h
  | cons e es ih =>
    intro d h
    exact ih (step d e) (step_endinv r d e h)

lemma init_endinv (ps : List Player) (r : ℕ) (dt : String) :
    EndInv r (Duel.init ps r dt) := by
  refine ⟨rfl, ?_⟩
  constructor
  · intro h
    exact absurd h (by simp [Duel.init])
  · rintro ⟨s, hs, hle⟩
    simp only [Duel.init, List.mem_map] at hs
    obtain ⟨_, _, rfl⟩ := hs
    omega

lemma step_of_ended (d : Duel) (e : Event) (h : d.duel_ended = true) : step d e = d := by
  cases e with
  | reaction u =>
    show handle_reaction d u = d
    unfold handle_reaction
    rw [if_pos h]
  | msg env a c t =>
    show handle_message env d a c t = d
    unfold handle_message
    rw [if_pos h]

/-- C3: for a match created with 3, 5 or 7 rounds, after any sequence of
inbound events the duel is in the ended state exactly when some score has
reached rounds / 2 + 1 (2, 3 or 4 respectively); the threshold check runs
after every scoring event, so the duel never ends while every score is below
the threshold, and once ended every further event leaves the state
unchanged, so no further rounds are scored. -/
theorem duel_ends_iff_majority (ps : List Player) (r : ℕ) (dt : String)
    (hr : r = 3 ∨ r = 5 ∨ r = 7) (es : List Event) :
    ((run (Duel.init ps r dt) es).duel_ended = true ↔
      ∃ s ∈ (run (Duel.init ps r dt) es).scores, r / 2 + 1 ≤ s) ∧
    ∀ e : Event, (run (Duel.init ps r dt) es).duel_ended = true →
      step (run (Duel.init ps r dt) es) e = run (Duel.init ps r dt) es := by
  have hInv := run_endinv r es (Duel.init ps r dt) (init_endinv ps r dt)
  exact ⟨hInv.2, fun e h => step_of_ended _ e h⟩

/-- C3 (witness): concrete instance at a fresh 3-round 2-player match with
no events: the duel is not ended and no score reaches 2. -/
theorem duel_ends_iff_majority_witness :
    ((3 : ℕ) = 3 ∨ (3 : ℕ) = 5 ∨ (3 : ℕ) = 7) ∧
    (((run (Duel.init playersAB 3 "normal") []).duel_ended = true ↔
      ∃ s ∈ (run (Duel.init playersAB 3 "normal") []).scores, 3 / 2 + 1 ≤ s) ∧
    ∀ e : Event, (run (Duel.init playersAB 3 "normal") []).duel_ended = true →
      step (run (Duel.init playersAB 3 "normal") []) e =
        run (Duel.init playersAB 3 "normal") []) :=
  ⟨Or.inl rfl, duel_ends_iff_majority playersAB 3 "normal" (Or.inl rfl) []⟩

lemma resolve_round_used (env : Env) (d : Duel) :
    (resolve_round env d).used_pokemon = d.used_pokemon := by
  unfold resolve_round
  split
  · split
    · exact (finish_round_facts _ _ _).2.2.2.2.1
    · rfl
  · split
    · exact (finish_round_facts _ _ _).2.2.2.2.1
    · rfl

lemma check_all_selected_used (env : Env) (d : Duel) :
    (check_all_selected env d).used_pokemon = d.used_pokemon := by
  unfold check_all_selected
  split
  · exact resolve_round_used env d
  · rfl

lemma process_selection_used (env : Env) (d : Duel) (a : ℕ) (c : String) :
    d.used_pokemon ⊆ (process_selection env d a c).used_pokemon := by
  unfold process_selection
  split
  · split
    · exact fun x hx => hx
    · split
      · rw [check_all_selected_used]
        exact fun x hx => List.mem_insert_of_mem hx
      · rw [(penalty_branch_facts _ _).2.2.2.2.1]
        exact fun x hx => hx
  · rw [check_all_selected_used]
    exact fun x hx => hx

lemma handle_message_used (env : Env) (d : Duel) (a : ℕ) (c : String) (t : ℚ) :
    d.used_pokemon ⊆ (handle_message env d a c t).used_pokemon := by
  unfold handle_message
  split
  · exact fun x hx => hx
  · split
    · split
      · split
        · exact fun x hx => hx
        · exact process_selection_used env d a c
      · exact fun x hx => hx
    · exact fun x hx => hx

lemma handle_reaction_used (d : Duel) (u : ℕ) :
    (handle_reaction d u).used_pokemon = d.used_pokemon := by
  unfold handle_reaction
  dsimp only
  split
  · rfl
  · split
    · split
      · rfl
      · rfl
    · rfl

lemma step_used (d : Duel) (e : Event) : d.used_pokemon ⊆ (step d e).used_pokemon := by
  cases e with
  | reaction u =>
    rw [show step d (Event.reaction u) = handle_reaction d u from rfl, handle_reaction_used]
    exact fun x hx => hx
  | msg env a c t => exact handle_message_used env d a c t

lemma run_used (es : List Event) : ∀ d : Duel, d.used_pokemon ⊆ (run d es).used_pokemon := by
  induction es with
  | nil => intro d; exact fun x hx => hx
  | cons e es ih =>
    intro d
    exact fun x hx => ih (step d e) (step_used d e hx)

lemma resolve_round_time (env : Env) (d : Duel) :
    (resolve_round env d).last_selection_time = d.last_selection_time := by
  unfold resolve_round
  split
  · split
    · exact (finish_round_facts _ _ _).2.2.2.2.2
    · rfl
  · split
    · exact (finish_round_facts _ _ _).2.2.2.2.2
    · rfl

lemma check_all_selected_time (env : Env) (d : Duel) :
    (check_all_selected env d).last_selection_time = d.last_selection_time := by
  unfold check_all_selected
  split
  · exact resolve_round_time env d
  · rfl

lemma process_selection_time (env : Env) (d : Duel) (a : ℕ) (c : String) :
    (process_selection env d a c).last_selection_time = d.last_selection_time := by
  unfold process_selection
  split
  · split
    · rfl
    · split
      · rw [check_all_selected_time]
      · exact (penalty_branch_facts _ _).2.2.2.2.2
  · exact check_all_selected_time env d

lemma handle_message_time (env : Env) (d : Duel) (a : ℕ) (c : String) (t : ℚ) :
    (handle_message env d a c t).last_selection_time = d.last_selection_time := by
  unfold handle_message
  split
  · rfl
  · split
    · split
      · split
        · rfl
        · exact process_selection_time env d a c
      · rfl
    · rfl

lemma handle_reaction_time (d : Duel) (u : ℕ) :
    (handle_reaction d u).last_selection_time = d.last_selection_time := by
  unfold handle_reaction
  dsimp only
  split
  · rfl
  · split
    · split
      · rfl
      · rfl
    · rfl

lemma step_time (d : Duel) (e : Event) :
    (step d e).last_selection_time = d.last_selection_time := by
  cases e with
  | reaction u => exact handle_reaction_time d u
  | msg env a c t => exact handle_message_time env d a c t

/-- C5: once a key is in a match's used set it stays there for the rest of
the match (the set only grows: every event handler preserves or extends it),
and every subsequent eligibility check, for any participant, environment and
duel type, rejects any creature whose lowercased name equals that key. -/
theorem used_key_rejected_forever (d : Duel) (key : String) (hk : key ∈ d.used_pokemon)
    (es : List Event) :
    key ∈ (run d es).used_pokemon ∧
    ∀ (env : Env) (pd : Pokemon) (dt : String), str_lower pd.name = key →
      (validate_pokemon_for_duel env pd dt (run d es).used_pokemon).1 = false := by
  have hmem := run_used es d hk
  refine ⟨hmem, ?_⟩
  intro env pd dt hname
  unfold validate_pokemon_for_duel
  dsimp only
  rw [hname, if_pos hmem]

/-- C5 (witness): the key "pikachu", already used in a concrete match, is
still in the used set after a further event and a creature of that name is
rejected by the validator. -/
theorem used_key_rejected_witness :
    "pikachu" ∈ dUsed.used_pokemon ∧
    str_lower pokePikachu.name = "pikachu" ∧
    "pikachu" ∈ (run dUsed [Event.reaction 0]).used_pokemon ∧
    (validate_pokemon_for_duel envDuel pokePikachu "normal"
      (run dUsed [Event.reaction 0]).used_pokemon).1 = false :=
  ⟨by decide, by decide,
   (used_key_rejected_forever dUsed "pikachu" (by decide) [Event.reaction 0]).1,
   (used_key_rejected_forever dUsed "pikachu" (by decide) [Event.reaction 0]).2
     envDuel pokePikachu "normal" (by decide)⟩

lemma mapIdx_getD (f : ℕ → ℕ → ℕ) (l : List ℕ) (j : ℕ) (hj : j < l.length) :
    (l.mapIdx f).getD j 0 = f j (l.getD j 0) := by
  have h' : j < (l.mapIdx f).length := by
    rw [List.length_mapIdx]
    exact hj
  rw [List.getD_eq_getElem _ _ h', List.getD_eq_getElem _ _ hj]
  simpa using List.get_mapIdx l f j hj

lemma award_opponent_points_getD (scores : List ℕ) (a j : ℕ) (hj : j < scores.length) :
    (award_opponent_points scores a).getD j 0 =
      if j = a then scores.getD j 0 else scores.getD j 0 + 1 := by
  unfold award_opponent_points
  exact mapIdx_getD _ scores j hj

lemma award_point_getD (scores : List ℕ) (w j : ℕ) (hj : j < scores.length) :
    (award_point scores w).getD j 0 =
      if j = w then scores.getD j 0 + 1 else scores.getD j 0 := by
  unfold award_point
  exact mapIdx_getD _ scores j hj

/-- C4: when a resolved submission is rejected by the eligibility validator,
every other participant's score increases by exactly 1 and the submitter's
own score is unchanged, no round-history entry is appended, the round index
does not advance, the duel ends exactly when some score now reaches the
majority threshold, and otherwise the selection window closes and the match
returns to awaiting ready acknowledgments. -/
theorem ineligible_selection_penalty (env : Env) (d : Duel) (author : ℕ) (content : String)
    (now : ℚ) (pd : Pokemon)
    (hend : d.duel_ended = false)
    (ha : author < d.players.length)
    (hlen : d.scores.length = d.players.length)
    (hsel : d.selection_phase = true)
    (hwait : d.waiting_for_selection = true)
    (hcool : ¬ (now - d.last_selection_time < d.selection_cooldown))
    (hnone : d.pokemon.getD author none = none)
    (hlook : env.lookup content = some pd)
    (hval : (validate_pokemon_for_duel env pd d.duel_type d.used_pokemon).1 = false) :
    (∀ j, j < d.scores.length → j ≠ author →
      (handle_message env d author content now).scores.getD j 0 = d.scores.getD j 0 + 1) ∧
    (handle_message env d author content now).scores.getD author 0 = d.scores.getD author 0 ∧
    (handle_message env d author content now).round_history = d.round_history ∧
    (handle_message env d author content now).current_round = d.current_round ∧
    ((handle_message env d author content now).duel_ended = true ↔
      ∃ s ∈ (handle_message env d author content now).scores, d.rounds / 2 + 1 ≤ s) ∧
    ((handle_message env d author content now).duel_ended = false →
      (handle_message env d author content now).selection_phase = false ∧
      (handle_message env d author content now).waiting_for_selection = false) := by
  have hstep : handle_message env d author content now = penalty_branch d author := by
    unfold handle_message process_selection
    simp only [hend, hsel, hwait, hnone, hlook, hval, Bool.false_eq_true, if_false,
      Option.isNone_none, if_pos ha, if_neg hcool, and_self, if_true]
  rw [hstep]
  refine ⟨?_, ?_, (penalty_branch_facts d author).2.1,
    (penalty_branch_facts d author).2.2.1, ?_, penalty_branch_not_ended d author⟩
  · intro j hj hja
    rw [(penalty_branch_facts d author).1, award_opponent_points_getD d.scores author j hj,
      if_neg hja]
  · have hauth : author < d.scores.length := by omega
    rw [(penalty_branch_facts d author).1,
      award_opponent_points_getD d.scores author author hauth, if_pos rfl]
  · rw [(penalty_branch_facts d author).1, penalty_branch_ended_iff d author hend]

/-- C4 (witness): a non-legendary creature submitted in a concrete
legendary-only match: the opponent's score becomes 1, the submitter's stays
0, no history entry appears and the round index stays 0. -/
theorem ineligible_selection_penalty_witness :
    (validate_pokemon_for_duel envDuel pokeRattata dSelecting.duel_type
      dSelecting.used_pokemon).1 = false ∧
    ((∀ j, j < dSelecting.scores.length → j ≠ 0 →
      (handle_message envDuel dSelecting 0 "rattata" 1000).scores.getD j 0 =
        dSelecting.scores.getD j 0 + 1) ∧
    (handle_message envDuel dSelecting 0 "rattata" 1000).scores.getD 0 0 =
      dSelecting.scores.getD 0 0 ∧
    (handle_message envDuel dSelecting 0 "rattata" 1000).round_history =
      dSelecting.round_history ∧
    (handle_message envDuel dSelecting 0 "rattata" 1000).current_round =
      dSelecting.current_round ∧
    ((handle_message envDuel dSelecting 0 "rattata" 1000).duel_ended = true ↔
      ∃ s ∈ (handle_message envDuel dSelecting 0 "rattata" 1000).scores,
        dSelecting.rounds / 2 + 1 ≤ s) ∧
    ((handle_message envDuel dSelecting 0 "rattata" 1000).duel_ended = false →
      (handle_message envDuel dSelecting 0 "rattata" 1000).selection_phase = false ∧
      (handle_message envDuel dSelecting 0 "rattata" 1000).waiting_for_selection = false)) :=
  ⟨by decide,
   ineligible_selection_penalty envDuel dSelecting 0 "rattata" 1000 pokeRattata
     (by decide) (by decide) (by decide) (by decide) (by decide)
     (by show ¬ ((1000 : ℚ) - dSelecting.last_selection_time < dSelecting.selection_cooldown)
         have h1 : dSelecting.last_selection_time = 0 := rfl
         have h2 : dSelecting.selection_cooldown = 3 := rfl
         rw [h1, h2]
         norm_num)
     (by decide) (by decide) (by decide)⟩

lemma le_max3_left (s0 s1 s2 : ℚ) : s0 ≤ max (max s0 s1) s2 :=
  le_trans (le_max_left s0 s1) (le_max_left _ s2)

lemma le_max3_mid (s0 s1 s2 : ℚ) : s1 ≤ max (max s0 s1) s2 :=
  le_trans (le_max_right s0 s1) (le_max_left _ s2)

lemma winners_filter_spec (s0 s1 s2 : ℚ) :
    ((List.range 3).filter (fun i => [s0, s1, s2].getD i 0 = max (max s0 s1) s2) = [0] ∧
      s0 > s1 ∧ s0 > s2) ∨
    ((List.range 3).filter (fun i => [s0, s1, s2].getD i 0 = max (max s0 s1) s2) = [1] ∧
      s1 > s0 ∧ s1 > s2) ∨
    ((List.range 3).filter (fun i => [s0, s1, s2].getD i 0 = max (max s0 s1) s2) = [2] ∧
      s2 > s0 ∧ s2 > s1) ∨
    (((List.range 3).filter (fun i => [s0, s1, s2].getD i 0 = max (max s0 s1) s2) = [0, 1] ∨
      (List.range 3).filter (fun i => [s0, s1, s2].getD i 0 = max (max s0 s1) s2) = [0, 2] ∨
      (List.range 3).filter (fun i => [s0, s1, s2].getD i 0 = max (max s0 s1) s2) = [1, 2] ∨
      (List.range 3).filter (fun i => [s0, s1, s2].getD i 0 = max (max s0 s1) s2) = [0, 1, 2]) ∧
      ¬(s0 > s1 ∧ s0 > s2) ∧ ¬(s1 > s0 ∧ s1 > s2) ∧ ¬(s2 > s0 ∧ s2 > s1)) := by
  have hr3 : List.range 3 = [0, 1, 2] := rfl
  rw [hr3]
  set M := max (max s0 s1) s2 with hM
  have h0 : s0 ≤ M := le_max3_left s0 s1 s2
  have h1 : s1 ≤ M := le_max3_mid s0 s1 s2
  have h2 : s2 ≤ M := le_max_right _ s2
  by_cases e0 : s0 = M <;> by_cases e1 : s1 = M <;> by_cases e2 : s2 = M
  · refine Or.inr (Or.inr (Or.inr ⟨Or.inr (Or.inr (Or.inr (by simp [e0, e1, e2]))),
      ?_, ?_, ?_⟩))
    · intro hcon
      have := hcon.1
      rw [e0, e1] at this
      exact lt_irrefl M this
    · intro hcon
      have := hcon.1
      rw [e0, e1] at this
      exact lt_irrefl M this
    · intro hcon
      have := hcon.1
      rw [e0, e2] at this
      exact lt_irrefl M this
  · refine Or.inr (Or.inr (Or.inr ⟨Or.inl (by simp [e0, e1, e2]), ?_, ?_, ?_⟩))
    · intro hcon
      have := hcon.1
      rw [e0, e1] at this
      exact lt_irrefl M this
    · intro hcon
      have := hcon.1
      rw [e0, e1] at this
      exact lt_irrefl M this
    · intro hcon
      have := hcon.1
      rw [e0] at this
      exact absurd this (not_lt.mpr h2)
  · refine Or.inr (Or.inr (Or.inr ⟨Or.inr (Or.inl (by simp [e0, e1, e2])), ?_, ?_, ?_⟩))
    · intro hcon
      have := hcon.2
      rw [e0, e2] at this
      exact lt_irrefl M this
    · intro hcon
      have := hcon.1
      rw [e0] at this
      exact absurd this (not_lt.mpr h1)
    · intro hcon
      have := hcon.1
      rw [e0, e2] at this
      exact lt_irrefl M this
  · left
    have hlt1 : s1 < M := lt_of_le_of_ne h1 e1
    have hlt2 : s2 < M := lt_of_le_of_ne h2 e2
    exact ⟨by simp [e0, ne_of_lt hlt1, ne_of_lt hlt2], by rw [e0]; exact hlt1,
      by rw [e0]; exact hlt2⟩
  · refine Or.inr (Or.inr (Or.inr ⟨Or.inr (Or.inr (Or.inl (by simp [e0, e1, e2]))),
      ?_, ?_, ?_⟩))
    · intro hcon
      have := hcon.1
      rw [e1] at this
      exact absurd this (not_lt.mpr h0)
    · intro hcon
      have := hcon.2
      rw [e1, e2] at this
      exact lt_irrefl M this
    · intro hcon
      have := hcon.2
      rw [e1, e2] at this
      exact lt_irrefl M this
  · right
    left
    have hlt0 : s0 < M := lt_of_le_of_ne h0 e0
    have hlt2 : s2 < M := lt_of_le_of_ne h2 e2
    exact ⟨by simp [e1, ne_of_lt hlt0, ne_of_lt hlt2], by rw [e1]; exact hlt0,
      by rw [e1]; exact hlt2⟩
  · right
    right
    left
    have hlt0 : s0 < M := lt_of_le_of_ne h0 e0
    have hlt1 : s1 < M := lt_of_le_of_ne h1 e1
    exact ⟨by simp [e2, ne_of_lt hlt0, ne_of_lt hlt1], by rw [e2]; exact hlt0,
      by rw [e2]; exact hlt1⟩
  · exfalso
    rcases max_choice (max s0 s1) s2 with h | h
    · rcases max_choice s0 s1 with h' | h'
      · exact e0 (by rw [hM, h, h'])
      · exact e1 (by rw [hM, h, h'])
    · exact e2 (by rw [hM, h])

/-- C6: when a round resolves, the participant with the strictly highest
battle score gains exactly one point and their name is recorded as the round
winner; when the maximal battle score is shared (equal scores for two
players, or a shared maximum among three) no score changes and the history
entry records the tie marker; in every resolved round exactly one
round-history entry is appended and the round index advances by exactly
one. -/
theorem round_resolution_scoring (env : Env) (d : Duel) :
    (∀ p0 p1 : Pokemon, d.is_triple_duel = false → d.pokemon = [some p0, some p1] →
      d.scores.length = 2 →
      (resolve_round env d).round_history.length = d.round_history.length + 1 ∧
      (resolve_round env d).current_round = d.current_round + 1 ∧
      ((calculate_battle_score env.md5hex p0 p1).1 > (calculate_battle_score env.md5hex p0 p1).2 →
        (resolve_round env d).scores = [d.scores.getD 0 0 + 1, d.scores.getD 1 0] ∧
        ((resolve_round env d).round_history.getLast?).map RoundData.winner = some (d.players.getD 0 default).name) ∧
      ((calculate_battle_score env.md5hex p0 p1).2 > (calculate_battle_score env.md5hex p0 p1).1 →
        (resolve_round env d).scores = [d.scores.getD 0 0, d.scores.getD 1 0 + 1] ∧
        ((resolve_round env d).round_history.getLast?).map RoundData.winner = some (d.players.getD 1 default).name) ∧
      ((calculate_battle_score env.md5hex p0 p1).1 = (calculate_battle_score env.md5hex p0 p1).2 →
        (resolve_round env d).scores = d.scores ∧
        ((resolve_round env d).round_history.getLast?).map RoundData.winner = some tie_marker)) ∧
    (∀ p0 p1 p2 : Pokemon, d.is_triple_duel = true → d.pokemon = [some p0, some p1, some p2] →
      d.scores.length = 3 →
      (resolve_round env d).round_history.length = d.round_history.length + 1 ∧
      (resolve_round env d).current_round = d.current_round + 1 ∧
      (triple_avg_score env.md5hex p0 p1 p2 > triple_avg_score env.md5hex p1 p2 p0 → triple_avg_score env.md5hex p0 p1 p2 > triple_avg_score env.md5hex p2 p0 p1 →
        (resolve_round env d).scores = [d.scores.getD 0 0 + 1, d.scores.getD 1 0, d.scores.getD 2 0] ∧
        ((resolve_round env d).round_history.getLast?).map RoundData.winner = some (d.players.getD 0 default).name) ∧
      (triple_avg_score env.md5hex p1 p2 p0 > triple_avg_score env.md5hex p0 p1 p2 → triple_avg_score env.md5hex p1 p2 p0 > triple_avg_score env.md5hex p2 p0 p1 →
        (resolve_round env d).scores = [d.scores.getD 0 0, d.scores.getD 1 0 + 1, d.scores.getD 2 0] ∧
        ((resolve_round env d).round_history.getLast?).map RoundData.winner = some (d.players.getD 1 default).name) ∧
      (triple_avg_score env.md5hex p2 p0 p1 > triple_avg_score env.md5hex p0 p1 p2 → triple_avg_score env.md5hex p2 p0 p1 > triple_avg_score env.md5hex p1 p2 p0 →
        (resolve_round env d).scores = [d.scores.getD 0 0, d.scores.getD 1 0, d.scores.getD 2 0 + 1] ∧
        ((resolve_round env d).round_history.getLast?).map RoundData.winner = some (d.players.getD 2 default).name) ∧
      (¬(triple_avg_score env.md5hex p0 p1 p2 > triple_avg_score env.md5hex p1 p2 p0 ∧ triple_avg_score env.md5hex p0 p1 p2 > triple_avg_score env.md5hex p2 p0 p1) → ¬(triple_avg_score env.md5hex p1 p2 p0 > triple_avg_score env.md5hex p0 p1 p2 ∧ triple_avg_score env.md5hex p1 p2 p0 > triple_avg_score env.md5hex p2 p0 p1) →
       ¬(triple_avg_score env.md5hex p2 p0 p1 > triple_avg_score env.md5hex p0 p1 p2 ∧ triple_avg_score env.md5hex p2 p0 p1 > triple_avg_score env.md5hex p1 p2 p0) →
        (resolve_round env d).scores = d.scores ∧
        ((resolve_round env d).round_history.getLast?).map RoundData.winner = some tie_marker)) := by
  constructor
  · intro p0 p1 htrip hpk hlen
    obtain ⟨x, y, hxy⟩ : ∃ x y, d.scores = [x, y] := by
      rcases hsc : d.scores with _ | ⟨x, t⟩
      · rw [hsc] at hlen
        simp at hlen
      · rcases t with _ | ⟨y, t⟩
        · rw [hsc] at hlen
          simp at hlen
        · rcases t with _ | ⟨z, t⟩
          · exact ⟨x, y, rfl⟩
          · rw [hsc] at hlen
            simp at hlen
    unfold resolve_round
    rw [htrip]
    simp only [Bool.false_eq_true, if_false, hpk]
    refine ⟨?_, ?_, ?_, ?_, ?_⟩
    · rw [(finish_round_facts _ _ _).1]
      simp
    · exact (finish_round_facts _ _ _).2.1
    · intro hgt
      rw [if_pos hgt]
      constructor
      · rw [(finish_round_facts _ _ _).2.2.1, hxy]
        simp [award_point, List.mapIdx, List.mapIdx.go]
      · rw [(finish_round_facts _ _ _).1, List.getLast?_concat]
        rfl
    · intro hgt
      rw [if_neg (lt_asymm hgt), if_pos hgt]
      constructor
      · rw [(finish_round_facts _ _ _).2.2.1, hxy]
        simp [award_point, List.mapIdx, List.mapIdx.go]
      · rw [(finish_round_facts _ _ _).1, List.getLast?_concat]
        rfl
    · intro heq
      rw [if_neg (by rw [heq]; exact lt_irrefl _), if_neg (by rw [heq]; exact lt_irrefl _)]
      constructor
      · exact (finish_round_facts _ _ _).2.2.1
      · rw [(finish_round_facts _ _ _).1, List.getLast?_concat]
        rfl
  · intro p0 p1 p2 htrip hpk hlen
    obtain ⟨x, y, z, hxyz⟩ : ∃ x y z, d.scores = [x, y, z] := by
      rcases hsc : d.scores with _ | ⟨x, t⟩
      · rw [hsc] at hlen
        simp at hlen
      · rcases t with _ | ⟨y, t⟩
        · rw [hsc] at hlen
          simp at hlen
        · rcases t with _ | ⟨z, t⟩
          · rw [hsc] at hlen
            simp at hlen
          · rcases t with _ | ⟨w, t⟩
            · exact ⟨x, y, z, rfl⟩
            · rw [hsc] at hlen
              simp at hlen
    unfold resolve_round
    rw [htrip]
    simp only [if_true, hpk]
    rcases winners_filter_spec (triple_avg_score env.md5hex p0 p1 p2) (triple_avg_score env.md5hex p1 p2 p0) (triple_avg_score env.md5hex p2 p0 p1) with
      ⟨hfilt, h01, h02⟩ | ⟨hfilt, h10, h12⟩ | ⟨hfilt, h20, h21⟩ |
      ⟨hfilt4, hn0, hn1, hn2⟩
    · rw [hfilt]
      refine ⟨?_, ?_, ?_, ?_, ?_, ?_⟩
      · rw [(finish_round_facts _ _ _).1]
        simp
      · exact (finish_round_facts _ _ _).2.1
      · intro _ _
        constructor
        · rw [(finish_round_facts _ _ _).2.2.1, hxyz]
          simp [award_point, List.mapIdx, List.mapIdx.go]
        · rw [(finish_round_facts _ _ _).1, List.getLast?_concat]
          rfl
      · intro h _
        exact absurd h (lt_asymm h01)
      · intro h _
        exact absurd h (lt_asymm h02)
      · intro hc0 _ _
        exact absurd ⟨h01, h02⟩ hc0
    · rw [hfilt]
      refine ⟨?_, ?_, ?_, ?_, ?_, ?_⟩
      · rw [(finish_round_facts _ _ _).1]
        simp
      · exact (finish_round_facts _ _ _).2.1
      · intro h _
        exact absurd h (lt_asymm h10)
      · intro _ _
        constructor
        · rw [(finish_round_facts _ _ _).2.2.1, hxyz]
          simp [award_point, List.mapIdx, List.mapIdx.go]
        · rw [(finish_round_facts _ _ _).1, List.getLast?_concat]
          rfl
      · intro _ h
        exact absurd h (lt_asymm h12)
      · intro _ hc1 _
        exact absurd ⟨h10, h12⟩ hc1
    · rw [hfilt]
      refine ⟨?_, ?_, ?_, ?_, ?_, ?_⟩
      · rw [(finish_round_facts _ _ _).1]
        simp
      · exact (finish_round_facts _ _ _).2.1
      · intro _ h
        exact absurd h (lt_asymm h20)
      · intro _ h
        exact absurd h (lt_asymm h21)
      · intro _ _
        constructor
        · rw [(finish_round_facts _ _ _).2.2.1, hxyz]
          simp [award_point, List.mapIdx, List.mapIdx.go]
        · rw [(finish_round_facts _ _ _).1, List.getLast?_concat]
          rfl
      · intro _ _ hc2
        exact absurd ⟨h20, h21⟩ hc2
    · have hrest : ∀ g : Duel,
        g = finish_round d
          { pokemon_names := [p0.name, p1.name, p2.name],
            scores := [triple_avg_score env.md5hex p0 p1 p2, triple_avg_score env.md5hex p1 p2 p0, triple_avg_score env.md5hex p2 p0 p1],
            winner := tie_marker } d.scores →
        g.round_history.length = d.round_history.length + 1 ∧
        g.current_round = d.current_round + 1 ∧
        g.scores = d.scores ∧
        (g.round_history.getLast?).map RoundData.winner = some tie_marker := by
        intro g hg
        rw [hg]
        refine ⟨?_, (finish_round_facts _ _ _).2.1, (finish_round_facts _ _ _).2.2.1, ?_⟩
        · rw [(finish_round_facts _ _ _).1]
          simp
        · rw [(finish_round_facts _ _ _).1, List.getLast?_concat]
          rfl
      rcases hfilt4 with hfilt | hfilt | hfilt | hfilt <;>
        · rw [hfilt]
          refine ⟨(hrest _ rfl).1, (hrest _ rfl).2.1, ?_, ?_, ?_, ?_⟩
          · intro h1 h2
            exact absurd ⟨h1, h2⟩ hn0
          · intro h1 h2
            exact absurd ⟨h1, h2⟩ hn1
          · intro h1 h2
            exact absurd ⟨h1, h2⟩ hn2
          · intro _ _ _
            exact ⟨(hrest _ rfl).2.2.1, (hrest _ rfl).2.2.2⟩

/-- C6 (witness): concrete two-player resolution with both selections
stored: exactly one history entry is appended and the round index advances,
with the scoring cases instantiated at these creatures. -/
theorem round_resolution_witness :
    dResolve2.is_triple_duel = false ∧
    dResolve2.pokemon = [some pokePikachu, some pokeEevee] ∧
    dResolve2.scores.length = 2 ∧
    ((resolve_round envDuel dResolve2).round_history.length = dResolve2.round_history.length + 1 ∧
     (resolve_round envDuel dResolve2).current_round = dResolve2.current_round + 1 ∧
     ((calculate_battle_score envDuel.md5hex pokePikachu pokeEevee).1 > (calculate_battle_score envDuel.md5hex pokePikachu pokeEevee).2 →
       (resolve_round envDuel dResolve2).scores = [dResolve2.scores.getD 0 0 + 1, dResolve2.scores.getD 1 0] ∧
       ((resolve_round envDuel dResolve2).round_history.getLast?).map RoundData.winner = some (dResolve2.players.getD 0 default).name) ∧
     ((calculate_battle_score envDuel.md5hex pokePikachu pokeEevee).2 > (calculate_battle_score envDuel.md5hex pokePikachu pokeEevee).1 →
       (resolve_round envDuel dResolve2).scores = [dResolve2.scores.getD 0 0, dResolve2.scores.getD 1 0 + 1] ∧
       ((resolve_round envDuel dResolve2).round_history.getLast?).map RoundData.winner = some (dResolve2.players.getD 1 default).name) ∧
     ((calculate_battle_score envDuel.md5hex pokePikachu pokeEevee).1 = (calculate_battle_score envDuel.md5hex pokePikachu pokeEevee).2 →
       (resolve_round envDuel dResolve2).scores = dResolve2.scores ∧
       ((resolve_round envDuel dResolve2).round_history.getLast?).map RoundData.winner = some tie_marker)) :=
  ⟨by decide, by decide, by decide,
   (round_resolution_scoring envDuel dResolve2).1 pokePikachu pokeEevee
     (by decide) (by decide) (by decide)⟩

lemma resolve_round_two_history (env : Env) (d : Duel) (p0 p1 : Pokemon)
    (htrip : d.is_triple_duel = false) (hpk : d.pokemon = [some p0, some p1]) :
    (resolve_round env d).round_history.length = d.round_history.length + 1 := by
  unfold resolve_round
  rw [htrip]
  simp only [Bool.false_eq_true, if_false, hpk]
  rw [(finish_round_facts _ _ _).1]
  simp

/-- C2 (code bug): the shared last-accepted-submission timestamp is never
written by any event handler — it keeps its initial value 0 forever — so the
3-second cooldown comparison never drops a real submission: in the concrete
run below the first selection is accepted at time 1000, the timestamp is
still 0 afterwards, and a second selection only one second later (well
within the 3-second window) is fully processed, resolving the round. -/
theorem cooldown_never_engages :
    (∀ (d : Duel) (e : Event), (step d e).last_selection_time = d.last_selection_time) ∧
    ((1001 : ℚ) - 1000 < 3) ∧
    (run (Duel.init playersAB 3 "normal")
      [Event.reaction 0, Event.reaction 1,
       Event.msg envDuel 0 "pikachu" 1000]).pokemon.getD 0 none = some pokePikachu ∧
    (run (Duel.init playersAB 3 "normal")
      [Event.reaction 0, Event.reaction 1,
       Event.msg envDuel 0 "pikachu" 1000]).last_selection_time = 0 ∧
    (run (Duel.init playersAB 3 "normal")
      [Event.reaction 0, Event.reaction 1,
       Event.msg envDuel 0 "pikachu" 1000,
       Event.msg envDuel 1 "eevee" 1001]).round_history.length = 1 := by
  have h2 : handle_reaction (handle_reaction (Duel.init playersAB 3 "normal") 0) 1 =
      { players := playersAB, rounds := 3, duel_type := "normal", scores := [0, 0],
          current_round := 0, ready_status := [false, false], pokemon := [none, none],
          countdown_active := true, selection_phase := true, used_pokemon := [],
          duel_ended := false, last_selection_time := 0, selection_cooldown := 3,
          waiting_for_selection := true, round_history := [], is_triple_duel := false } := by decide
  have h3 : handle_message envDuel
      ({ players := playersAB, rounds := 3, duel_type := "normal", scores := [0, 0],
          current_round := 0, ready_status := [false, false], pokemon := [none, none],
          countdown_active := true, selection_phase := true, used_pokemon := [],
          duel_ended := false, last_selection_time := 0, selection_cooldown := 3,
          waiting_for_selection := true, round_history := [], is_triple_duel := false }) 0 "pikachu" 1000 =
      { players := playersAB, rounds := 3, duel_type := "normal", scores := [0, 0],
          current_round := 0, ready_status := [false, false], pokemon := [some pokePikachu, none],
          countdown_active := true, selection_phase := true, used_pokemon := ["pikachu"],
          duel_ended := false, last_selection_time := 0, selection_cooldown := 3,
          waiting_for_selection := true, round_history := [], is_triple_duel := false } := by
    have hnc : ¬ ((1000 : ℚ) - (0 : ℚ) < (3 : ℚ)) := by norm_num
    unfold handle_message
    rw [if_neg (by decide), if_pos (by decide), if_pos (by decide), if_neg hnc]
    decide
  have h4 : handle_message envDuel
      ({ players := playersAB, rounds := 3, duel_type := "normal", scores := [0, 0],
          current_round := 0, ready_status := [false, false], pokemon := [some pokePikachu, none],
          countdown_active := true, selection_phase := true, used_pokemon := ["pikachu"],
          duel_ended := false, last_selection_time := 0, selection_cooldown := 3,
          waiting_for_selection := true, round_history := [], is_triple_duel := false }) 1 "eevee" 1001 =
      check_all_selected envDuel
      ({ players := playersAB, rounds := 3, duel_type := "normal", scores := [0, 0],
          current_round := 0, ready_status := [false, false], pokemon := [some pokePikachu, some pokeEevee],
          countdown_active := true, selection_phase := true, used_pokemon := ["eevee", "pikachu"],
          duel_ended := false, last_selection_time := 0, selection_cooldown := 3,
          waiting_for_selection := true, round_history := [], is_triple_duel := false }) := by
    have hnc : ¬ ((1001 : ℚ) - (0 : ℚ) < (3 : ℚ)) := by norm_num
    unfold handle_message
    rw [if_neg (by decide), if_pos (by decide), if_pos (by decide), if_neg hnc]
    unfold process_selection
    rw [if_pos (by decide), show envDuel.lookup "eevee" = some pokeEevee from by decide]
    dsimp only
    rw [if_pos (by decide)]
    congr 1
  have h5 : (check_all_selected envDuel
      ({ players := playersAB, rounds := 3, duel_type := "normal", scores := [0, 0],
          current_round := 0, ready_status := [false, false], pokemon := [some pokePikachu, some pokeEevee],
          countdown_active := true, selection_phase := true, used_pokemon := ["eevee", "pikachu"],
          duel_ended := false, last_selection_time := 0, selection_cooldown := 3,
          waiting_for_selection := true, round_history := [], is_triple_duel := false })).round_history.length = 1 := by
    unfold check_all_selected
    rw [if_pos (by decide)]
    rw [resolve_round_two_history envDuel _ pokePikachu pokeEevee (by decide) (by decide)]
    decide
  refine ⟨step_time, by norm_num, ?_, ?_, ?_⟩
  · simp only [run, List.foldl, step]
    rw [h2, h3]
    decide
  · simp only [run, List.foldl, step]
    rw [h2, h3]
  · simp only [run, List.foldl, step]
    rw [h2, h3, h4]
    exact h5
